import Mathlib

/-!
# Template augmentation helpers of the Argo compiler (`argocompiler/common.go`)

A shallow embedding of `backend/src/v2/compiler/argocompiler/common.go`:
`GetMLPipelineServiceTLSEnabled`, `ConfigureCABundle`, `addExitTask` and the
package-level value `commonEnvs`, together with the parts of the Go standard
library (`os.Getenv`, `strconv.ParseBool`, `path.Dir`, `strings.Join`) and of the
Kubernetes / Argo object model that these functions touch.

Conventions of the embedding.

* Go slices are Lean lists; `append(s, x)` is `s ++ [x]`.
* A Go pointer field that may be `nil` is an `Option`; dereferencing `nil`
  panics, so a function that dereferences such a pointer returns an `Option`
  whose `none` is the run-time panic.
* A Go map is an association list searched from the front; the `nil` map is `[]`.
* In-place mutation through a pointer argument is a function from the old
  object to the new one.
* The process environment is an explicit argument.
* Constants that the file uses but that are declared elsewhere
  (`common.CaBundlePath`, `common.CaBundleSecretName`, `paramParentDagID`) are
  explicit parameters of the functions that use them.
* The code that appends `commonEnvs` to a container lies outside the file; it is
  modelled from the specification as `injectIdentityEnvs`.
-/

namespace Argocompiler

/-! ## Process environment -/

/-- The process environment: the value of a variable, or `none` when it is unset. -/
abbrev Environ := String → Option String

/-- Go `os.Getenv`: the value of the variable, `""` when it is unset. -/
def osGetenv (env : Environ) (key : String) : String :=
  match env key with
  | some v => v
  | none => ""

/-! ## `strconv.ParseBool` -/

/-- Go `strconv.ErrSyntax` and `strconv.ErrRange`, the causes a `NumError` can carry. -/
inductive StrconvErr where
  | ErrSyntax
  | ErrRange
  deriving DecidableEq, Repr

/-- Go `strconv.NumError`: the failing function, the input string, and the cause. -/
structure NumError where
  Func : String
  Num : String
  Err : StrconvErr
  deriving DecidableEq, Repr

/-- Go `strconv.syntaxError(fn, str)`. -/
def syntaxError (fn str : String) : NumError :=
  { Func := fn, Num := str, Err := StrconvErr.ErrSyntax }

/-- Go `strconv.ParseBool`: a pair of the boolean and the error (`none` is `nil`). -/
def ParseBool (str : String) : Bool × Option NumError :=
  if str = "1" ∨ str = "t" ∨ str = "T" ∨ str = "true" ∨ str = "TRUE" ∨ str = "True" then
    (true, none)
  else if str = "0" ∨ str = "f" ∨ str = "F" ∨ str = "false" ∨ str = "FALSE" ∨ str = "False" then
    (false, none)
  else
    (false, some (syntaxError "ParseBool" str))

/-! ## TLS policy -/

/-- Name of the environment variable holding the TLS setting. -/
def MLPipelineTLSEnabledEnvVar : String := "ML_PIPELINE_TLS_ENABLED"

/-- Value used when the TLS setting is absent. -/
def DefaultMLPipelineTLSEnabled : Bool := false

/-- `GetMLPipelineServiceTLSEnabled`: the pair `(bool, error)` the Go function returns. -/
def GetMLPipelineServiceTLSEnabled (env : Environ) : Bool × Option NumError :=
  let mlPipelineServiceTLSEnabledStr := osGetenv env MLPipelineTLSEnabledEnvVar
  if mlPipelineServiceTLSEnabledStr = "" then
    (DefaultMLPipelineTLSEnabled, none)
  else
    match ParseBool (osGetenv env MLPipelineTLSEnabledEnvVar) with
    | (_, some err) => (false, some err)
    | (mlPipelineServiceTLSEnabled, none) => (mlPipelineServiceTLSEnabled, none)

/-! ## Kubernetes core objects -/

/-- The `k8score.ObjectFieldSelector` type: a reference to a field of the running pod. -/
structure ObjectFieldSelector where
  APIVersion : String := ""
  FieldPath : String
  deriving DecidableEq, Repr

/-- The `k8score.EnvVarSource` type (the `FieldRef` alternative). -/
structure EnvVarSource where
  FieldRef : Option ObjectFieldSelector := none
  deriving DecidableEq, Repr

/-- The `k8score.EnvVar` type: a name with a literal value or a value source. -/
structure EnvVar where
  Name : String
  Value : String := ""
  ValueFrom : Option EnvVarSource := none
  deriving DecidableEq, Repr

/-- The `k8score.SecretVolumeSource` type. -/
structure SecretVolumeSource where
  SecretName : String := ""
  deriving DecidableEq, Repr

/-- The `k8score.VolumeSource` type (the `Secret` alternative). -/
structure VolumeSource where
  Secret : Option SecretVolumeSource := none
  deriving DecidableEq, Repr

/-- The `k8score.Volume` type. -/
structure Volume where
  Name : String
  VolumeSource : VolumeSource := {}
  deriving DecidableEq, Repr

/-- The `k8score.VolumeMount` type. -/
structure VolumeMount where
  Name : String
  ReadOnly : Bool := false
  MountPath : String
  SubPath : String := ""
  deriving DecidableEq, Repr

/-- The `k8score.Container` type. -/
structure Container where
  Name : String := ""
  Image : String := ""
  Command : List String := []
  Args : List String := []
  Env : List EnvVar := []
  VolumeMounts : List VolumeMount := []
  deriving DecidableEq, Repr

/-! ## Argo workflow objects -/

/-- The `wfapi.Parameter` type; `Value` is the `*AnyString` field. -/
structure Parameter where
  Name : String
  Default : Option String := none
  Value : Option String := none
  deriving DecidableEq, Repr

/-- The `wfapi.Artifact` type. -/
structure Artifact where
  Name : String
  Path : String := ""
  deriving DecidableEq, Repr

/-- The `wfapi.Arguments` type. -/
structure Arguments where
  Parameters : List Parameter := []
  Artifacts : List Artifact := []
  deriving DecidableEq, Repr

/-- The `wfapi.LifecycleEvent` type, a string. -/
abbrev LifecycleEvent := String

/-- The `wfapi.ExitLifecycleEvent` constant. -/
def ExitLifecycleEvent : LifecycleEvent := "exit"

/-- The `wfapi.LifecycleHook` type. -/
structure LifecycleHook where
  Template : String := ""
  Arguments : Arguments := {}
  Expression : String := ""
  deriving DecidableEq, Repr

/-- The `wfapi.LifecycleHooks` type, `map[LifecycleEvent]LifecycleHook`. -/
abbrev LifecycleHooks := List (LifecycleEvent × LifecycleHook)

/-- Map lookup `hooks[event]` with its presence flag: `none` when the key is absent. -/
def LifecycleHooks.get (hooks : LifecycleHooks) (event : LifecycleEvent) : Option LifecycleHook :=
  match hooks with
  | [] => none
  | (k, v) :: rest => if k = event then some v else LifecycleHooks.get rest event

/-- The keys of the map, without repetition. -/
def LifecycleHooks.keys (hooks : LifecycleHooks) : List LifecycleEvent :=
  (hooks.map Prod.fst).dedup

/-- The `wfapi.DAGTask` type. -/
structure DAGTask where
  Name : String := ""
  Template : String := ""
  Arguments : Arguments := {}
  Dependencies : List String := []
  When : String := ""
  OnExit : String := ""
  Depends : String := ""
  Hooks : LifecycleHooks := []
  deriving DecidableEq, Repr

/-- The `wfapi.DAGTemplate` type. -/
structure DAGTemplate where
  Tasks : List DAGTask := []
  deriving DecidableEq, Repr

/-- The `wfapi.Template` type; `Container` and `DAG` are pointer fields. -/
structure Template where
  Name : String := ""
  Container : Option Container := none
  DAG : Option DAGTemplate := none
  Volumes : List Volume := []
  deriving DecidableEq, Repr

/-- Go `wfapi.AnyStringPtr` on a string: a pointer to the string itself. -/
def AnyStringPtr (val : String) : Option String := some val

/-! ## Exit-hook wiring -/

/-- `addExitTask`: the task after the call. `paramParentDagID` is the package
constant of that name. -/
def addExitTask (paramParentDagID : String) (task : DAGTask) (exitTemplate : String)
    (parentDagID : String) : DAGTask :=
  if exitTemplate = "" then
    task
  else
    { task with
      Hooks := [(ExitLifecycleEvent,
        { Template := exitTemplate
          Arguments := { Parameters := [{ Name := paramParentDagID, Value := AnyStringPtr parentDagID }] } })] }

/-! ## `strings.Join` -/

/-- Go `strings.Join`: the elements in order, with `sep` written before every
element after the first. -/
def stringsJoin (elems : List String) (sep : String) : String :=
  match elems with
  | [] => ""
  | [e] => e
  | e :: rest => rest.foldl (fun b s => b ++ sep ++ s) e

/-! ## `path.Dir`

Go's `path` package works on bytes. The only bytes it inspects are `/` and `.`,
which never occur inside a multi-byte UTF-8 sequence, so on valid UTF-8 the
character-wise functions below compute the same strings. The `lazybuf` of the Go
code is represented by the bytes written so far, `buf[:w]`, so `w` is the length
of that list. -/

/-- Go `bytealg.LastIndexByteString` scanning down from index `i - 1`: the largest
index below `i` holding `c`, or `-1`. -/
def lastIndexByteFrom (s : List Char) (c : Char) : Nat → Int
  | 0 => -1
  | i + 1 => if s.getD i ' ' = c then (i : Int) else lastIndexByteFrom s c i

/-- Go `bytealg.LastIndexByteString`. -/
def lastIndexByte (s : List Char) (c : Char) : Int :=
  lastIndexByteFrom s c s.length

/-- Go `path.Split`: `path[:i+1]` and `path[i+1:]` for the last slash `i`. -/
def pathSplit (path : List Char) : List Char × List Char :=
  let i := lastIndexByte path '/'
  (path.take (i + 1).toNat, path.drop (i + 1).toNat)

/-- The backtracking of `path.Clean` at a `..` element, started after the first
`out.w--`: `for out.w > dotdot && out.index(out.w) != '/' { out.w-- }`. The
result is the final `out.w`. -/
def backtrack (buf : List Char) (dotdot : Nat) : Nat → Nat
  | 0 => 0
  | w + 1 =>
    if w + 1 > dotdot ∧ buf.getD (w + 1) '/' ≠ '/' then backtrack buf dotdot w else w + 1

/-- The main loop `for r < n` of `path.Clean`. `path` is the unread input
`path[r:]`, `out` the bytes written so far. Every iteration reads at least one
byte, so `fuel` at least the length of the unread input is never used up. -/
def cleanLoop (rooted : Bool) : Nat → List Char → List Char → Nat → List Char
  | 0, _, out, _ => out
  | fuel + 1, path, out, dotdot =>
    match path with
    | [] => out
    | c :: rest =>
      if c = '/' then
        -- empty path element
        cleanLoop rooted fuel rest out dotdot
      else if c = '.' ∧ (rest = [] ∨ rest.head? = some '/') then
        -- . element
        cleanLoop rooted fuel rest out dotdot
      else if c = '.' ∧ rest.head? = some '.' ∧
          (rest.tail = [] ∨ rest.tail.head? = some '/') then
        -- .. element: remove to last /
        if out.length > dotdot then
          cleanLoop rooted fuel rest.tail
            (out.take (backtrack out dotdot (out.length - 1))) dotdot
        else if rooted = false then
          let out1 := if out.length > 0 then out ++ ['/'] else out
          let out2 := out1 ++ ['.', '.']
          cleanLoop rooted fuel rest.tail out2 out2.length
        else
          cleanLoop rooted fuel rest.tail out dotdot
      else
        -- real path element: add slash if needed, copy element
        let out1 :=
          if (rooted = true ∧ out.length ≠ 1) ∨ (rooted = false ∧ out.length ≠ 0) then
            out ++ ['/']
          else out
        cleanLoop rooted fuel (rest.dropWhile (fun x => x ≠ '/'))
          (out1 ++ c :: rest.takeWhile (fun x => x ≠ '/')) dotdot

/-- Go `path.Clean` on the characters of the path. -/
def pathCleanChars (path : List Char) : List Char :=
  if path = [] then
    ['.']
  else
    let rooted : Bool := path.head? = some '/'
    let out :=
      if rooted then cleanLoop rooted path.length path.tail ['/'] 1
      else cleanLoop rooted path.length path [] 0
    if out.length = 0 then ['.'] else out

/-- Go `path.Clean`. -/
def pathClean (path : String) : String :=
  String.mk (pathCleanChars path.data)

/-- Go `path.Dir`: all but the last element of the path, cleaned. -/
def pathDir (path : String) : String :=
  String.mk (pathCleanChars (pathSplit path.data).1)

/-! ## Package-level values -/

/-- The package variable `commonEnvs`. -/
def commonEnvs : List EnvVar :=
  [ { Name := "KFP_POD_NAME"
      ValueFrom := some { FieldRef := some { FieldPath := "metadata.name" } } },
    { Name := "KFP_POD_UID"
      ValueFrom := some { FieldRef := some { FieldPath := "metadata.uid" } } } ]

/-! ## Trust material injection -/

/-- `ConfigureCABundle`: the template after the call, or `none` when the call
panics on the nil `tmpl.Container`. `CaBundlePath` and `CaBundleSecretName` are
the constants of those names of package `apiserver/common`. -/
def ConfigureCABundle (CaBundlePath CaBundleSecretName : String) (env : Environ)
    (tmpl : Template) : Option Template :=
  let caBundleCertPath := osGetenv env CaBundlePath
  let caBundleDir := pathDir caBundleCertPath
  let caBundleSecretName := osGetenv env CaBundleSecretName
  if caBundleSecretName ≠ "" then
    let certDirectories := [caBundleDir, "/etc/ssl/certs", "/etc/pki/tls/certs"]
    match tmpl.Container with
    | none => none
    | some container =>
      let container := { container with
        Env := container.Env ++ [({ Name := "REQUESTS_CA_BUNDLE", Value := caBundleCertPath } : EnvVar)] }
      let container := { container with
        Env := container.Env ++ [({ Name := "AWS_CA_BUNDLE", Value := caBundleCertPath } : EnvVar)] }
      let container := { container with
        Env := container.Env ++ [({ Name := "SSL_CERT_FILE", Value := caBundleCertPath } : EnvVar)] }
      let sslCertDir := stringsJoin certDirectories ":"
      let container := { container with
        Env := container.Env ++ [({ Name := "SSL_CERT_DIR", Value := sslCertDir } : EnvVar)] }
      let volume : Volume :=
        { Name := "ca-secret"
          VolumeSource := { Secret := some { SecretName := caBundleSecretName } } }
      let volumes := tmpl.Volumes ++ [volume]
      let volumeMount : VolumeMount := { Name := "ca-secret", MountPath := caBundleDir }
      let container := { container with
        VolumeMounts := container.VolumeMounts ++ [volumeMount] }
      some { tmpl with Container := some container, Volumes := volumes }
  else
    some tmpl


/-! ## Identity env injection -/

/-- Modelled from the spec: the Identity Env Injector (section 4.3), whose code is
not in the source file (only its data, `commonEnvs`, is). It unconditionally
appends the two fixed identity env vars to the container's env list. -/
def injectIdentityEnvs (container : Container) : Container :=
  { container with Env := container.Env ++ commonEnvs }

/-! ## Specification vocabulary -/

/-- Letter-case-insensitive equality of two strings. -/
def equalFold (s t : String) : Bool :=
  s.data.map Char.toLower == t.data.map Char.toLower

/-- The template invariant of the data model: every volume mount of the
container names exactly one volume of the template. -/
def volumeMountsResolve (tmpl : Template) : Prop :=
  ∀ c ∈ tmpl.Container, ∀ m ∈ c.VolumeMounts,
    tmpl.Volumes.countP (fun v => v.Name = m.Name) = 1

instance (tmpl : Template) : Decidable (volumeMountsResolve tmpl) :=
  inferInstanceAs (Decidable (∀ c ∈ tmpl.Container, ∀ m ∈ c.VolumeMounts,
    tmpl.Volumes.countP (fun v => v.Name = m.Name) = 1))

/-! ## Concrete objects used to instantiate the theorems -/

/-- An environment with a CA bundle path and a CA secret name configured. -/
def exampleEnv : Environ := fun key =>
  if key = "CABUNDLE_PATH" then some "/kfp/certs/ca.pem"
  else if key = "CABUNDLE_SECRET_NAME" then some "kfp-ca"
  else none

/-- An environment with a CA bundle path but no CA secret name. -/
def exampleEnvNoSecret : Environ := fun key =>
  if key = "CABUNDLE_PATH" then some "/kfp/certs/ca.pem" else none

/-- An environment whose only variable is the TLS setting, with value `v`. -/
def tlsEnv (v : String) : Environ := fun key =>
  if key = "ML_PIPELINE_TLS_ENABLED" then some v else none

/-- A container template with one env var, one volume and its mount. -/
def exampleTemplate : Template :=
  { Name := "system-container-impl"
    Container := some
      { Name := "main"
        Image := "python:3.9"
        Env := [{ Name := "HOME", Value := "/root" }]
        VolumeMounts := [{ Name := "data", MountPath := "/data" }] }
    Volumes := [{ Name := "data" }] }

/-- A DAG template: it carries no container. -/
def exampleDagTemplate : Template :=
  { Name := "root", DAG := some { Tasks := [{ Name := "a", Template := "comp-a" }] } }

/-- A container template that already owns a volume named `ca-secret`. -/
def exampleTemplateWithCaVolume : Template :=
  { Name := "impl", Container := some { Name := "main" }, Volumes := [{ Name := "ca-secret" }] }

/-- A task that already carries an exit hook and a hook for another event. -/
def exampleTask : DAGTask :=
  { Name := "train"
    Template := "comp-train"
    Dependencies := ["prepare"]
    Hooks := [("exit", { Template := "old-exit" }), ("running", { Template := "notify" })] }

/-- The container of `exampleTemplate`. -/
def exampleContainer : Container :=
  { Name := "main"
    Image := "python:3.9"
    Env := [{ Name := "HOME", Value := "/root" }]
    VolumeMounts := [{ Name := "data", MountPath := "/data" }] }

/-- The environment `exampleEnv` with the TLS setting added, with value `v`. -/
def exampleEnvWithTLS (v : String) : Environ := fun key =>
  if key = "ML_PIPELINE_TLS_ENABLED" then some v else exampleEnv key

/-- An environment with a CA secret name but no CA bundle path. -/
def exampleEnvNoPath : Environ := fun key =>
  if key = "CABUNDLE_SECRET_NAME" then some "kfp-ca" else none

/-! ## Lemmas on the embedded functions -/

theorem ParseBool_error_iff (str : String) :
    (ParseBool str).2 ≠ none ↔
      str ∉ ["1", "t", "T", "true", "TRUE", "True", "0", "f", "F", "false", "FALSE", "False"] := by
  unfold ParseBool
  split_ifs with h1 h2
  · simp only [List.mem_cons, List.mem_singleton, List.not_mem_nil, or_false]
    tauto
  · simp only [List.mem_cons, List.mem_singleton, List.not_mem_nil, or_false]
    tauto
  · simp only [List.mem_cons, List.mem_singleton, List.not_mem_nil, or_false]
    simp
    tauto

theorem ParseBool_error_eq (str : String) (e : NumError) (h : (ParseBool str).2 = some e) :
    ParseBool str = (false, some (syntaxError "ParseBool" str)) := by
  unfold ParseBool at h ⊢
  split_ifs at h ⊢ with h1 h2
  all_goals simp_all

theorem GetMLPipelineServiceTLSEnabled_eq (env : Environ) :
    GetMLPipelineServiceTLSEnabled env =
      if osGetenv env MLPipelineTLSEnabledEnvVar = "" then (false, none)
      else ParseBool (osGetenv env MLPipelineTLSEnabledEnvVar) := by
  generalize hv : osGetenv env MLPipelineTLSEnabledEnvVar = v
  unfold GetMLPipelineServiceTLSEnabled
  simp only [hv, DefaultMLPipelineTLSEnabled]
  split_ifs with h0
  · rfl
  · cases hp : ParseBool v with
    | mk b e =>
      cases e with
      | none => rfl
      | some err =>
        have h := ParseBool_error_eq v err (by rw [hp])
        rw [hp] at h
        simp only [Prod.mk.injEq] at h
        simp [h.1]

theorem stringsJoin_certDirectories (dir : String) :
    stringsJoin [dir, "/etc/ssl/certs", "/etc/pki/tls/certs"] ":" =
      dir ++ ":/etc/ssl/certs:/etc/pki/tls/certs" := by
  simp only [stringsJoin, List.foldl]
  rw [String.append_assoc, String.append_assoc, String.append_assoc]
  congr 1

theorem ConfigureCABundle_of_secret (CaBundlePath CaBundleSecretName : String) (env : Environ)
    (tmpl : Template) (c : Container) (hc : tmpl.Container = some c)
    (hs : osGetenv env CaBundleSecretName ≠ "") :
    ConfigureCABundle CaBundlePath CaBundleSecretName env tmpl =
      some { tmpl with
        Container := some { c with
          Env := c.Env ++
            [ { Name := "REQUESTS_CA_BUNDLE", Value := osGetenv env CaBundlePath },
              { Name := "AWS_CA_BUNDLE", Value := osGetenv env CaBundlePath },
              { Name := "SSL_CERT_FILE", Value := osGetenv env CaBundlePath },
              { Name := "SSL_CERT_DIR",
                Value := pathDir (osGetenv env CaBundlePath) ++
                  ":/etc/ssl/certs:/etc/pki/tls/certs" } ]
          VolumeMounts := c.VolumeMounts ++
            [{ Name := "ca-secret", MountPath := pathDir (osGetenv env CaBundlePath) }] }
        Volumes := tmpl.Volumes ++
          [{ Name := "ca-secret"
             VolumeSource := { Secret := some { SecretName := osGetenv env CaBundleSecretName } } }] } := by
  simp only [ConfigureCABundle, hs, hc, ne_eq, not_false_eq_true, if_true,
    stringsJoin_certDirectories, List.append_assoc, List.singleton_append, List.cons_append,
    List.nil_append]

theorem ConfigureCABundle_no_secret (CaBundlePath CaBundleSecretName : String) (env : Environ)
    (tmpl : Template) (hs : osGetenv env CaBundleSecretName = "") :
    ConfigureCABundle CaBundlePath CaBundleSecretName env tmpl = some tmpl := by
  simp [ConfigureCABundle, hs]

theorem ConfigureCABundle_no_container (CaBundlePath CaBundleSecretName : String) (env : Environ)
    (tmpl : Template) (hc : tmpl.Container = none)
    (hs : osGetenv env CaBundleSecretName ≠ "") :
    ConfigureCABundle CaBundlePath CaBundleSecretName env tmpl = none := by
  simp [ConfigureCABundle, hs, hc]

theorem countP_name_eq_zero (volumes : List Volume) (name : String)
    (h : ∀ v ∈ volumes, v.Name ≠ name) :
    volumes.countP (fun v => v.Name = name) = 0 := by
  rw [List.countP_eq_zero]
  intro v hv
  simpa using h v hv

theorem cleanLoop_nil (rooted : Bool) (fuel : Nat) (out : List Char) (dotdot : Nat) :
    cleanLoop rooted fuel [] out dotdot = out := by
  cases fuel <;> rfl

theorem cleanLoop_fuel (rooted : Bool) (f1 : Nat) :
    ∀ (f2 : Nat) (path out : List Char) (dotdot : Nat),
      path.length ≤ f1 → path.length ≤ f2 →
      cleanLoop rooted f1 path out dotdot = cleanLoop rooted f2 path out dotdot := by
  induction f1 with
  | zero =>
    intro f2 path out dotdot h1 _
    have hp : path = [] := List.length_eq_zero.mp (Nat.le_zero.mp h1)
    subst hp
    rw [cleanLoop_nil, cleanLoop_nil]
  | succ f1 ih =>
    intro f2 path out dotdot h1 h2
    cases path with
    | nil => rw [cleanLoop_nil, cleanLoop_nil]
    | cons c rest =>
      cases f2 with
      | zero => simp at h2
      | succ f2 =>
        simp only [List.length_cons, Nat.add_le_add_iff_right] at h1 h2
        have ht1 : rest.tail.length ≤ f1 := by
          rw [List.length_tail]; omega
        have ht2 : rest.tail.length ≤ f2 := by
          rw [List.length_tail]; omega
        have hd := (List.dropWhile_suffix (l := rest) (fun x => decide (x ≠ '/'))).length_le
        simp only [cleanLoop]
        split_ifs
        all_goals first
          | exact ih _ _ _ _ h1 h2
          | exact ih _ _ _ _ ht1 ht2
          | exact ih _ _ _ _ (Nat.le_trans hd h1) (Nat.le_trans hd h2)

/-- The loop of `path.Clean` is run with enough fuel: any larger amount gives the
same cleaned path. -/
theorem pathCleanChars_fuel (path : List Char) (extra : Nat) :
    pathCleanChars path =
      if path = [] then ['.']
      else
        let rooted : Bool := path.head? = some '/'
        let out :=
          if rooted then cleanLoop rooted (path.length + extra) path.tail ['/'] 1
          else cleanLoop rooted (path.length + extra) path [] 0
        if out.length = 0 then ['.'] else out := by
  unfold pathCleanChars
  have h1 : path.tail.length ≤ path.length := by rw [List.length_tail]; omega
  simp only [cleanLoop_fuel _ path.length (path.length + extra) path.tail _ _ h1 (by omega),
    cleanLoop_fuel _ path.length (path.length + extra) path _ _ (Nat.le_refl _) (by omega)]

theorem dot_or_self_ne_nil (out : List Char) :
    (if out.length = 0 then ['.'] else out) ≠ [] := by
  split_ifs with h
  · simp
  · intro h0
    exact h (by rw [h0]; rfl)

theorem pathCleanChars_ne_nil (path : List Char) : pathCleanChars path ≠ [] := by
  unfold pathCleanChars
  by_cases h1 : path = []
  · simp [h1]
  · rw [if_neg h1]
    exact dot_or_self_ne_nil _

theorem pathDir_ne_empty (path : String) : pathDir path ≠ "" := by
  unfold pathDir
  intro h
  have := congrArg String.data h
  exact pathCleanChars_ne_nil _ this

theorem pathDir_empty : pathDir "" = "." := by decide

theorem ParseBool_true_iff (str : String) :
    ParseBool str = (true, none) ↔ str ∈ ["1", "t", "T", "TRUE", "true", "True"] := by
  unfold ParseBool
  simp only [List.mem_cons, List.mem_singleton, List.not_mem_nil, or_false]
  split_ifs with h1 h2
  · simp only [true_iff]
    tauto
  · simp only [Prod.mk.injEq, Bool.false_eq_true, and_true, false_iff]
    tauto
  · simp only [Prod.mk.injEq, Bool.false_eq_true, false_and, false_iff]
    tauto

theorem ParseBool_false_iff (str : String) :
    ParseBool str = (false, none) ↔ str ∈ ["0", "f", "F", "FALSE", "false", "False"] := by
  unfold ParseBool
  simp only [List.mem_cons, List.mem_singleton, List.not_mem_nil, or_false]
  split_ifs with h1 h2
  · simp only [Prod.mk.injEq, Bool.true_eq_false, and_true, false_iff]
    intro h
    rcases h with h | h | h | h | h | h <;> subst h <;> revert h1 <;> decide
  · simp only [true_iff]
    tauto
  · simp only [Prod.mk.injEq, true_and, false_iff]
    constructor
    · intro h; cases h
    · intro h; exact absurd h (by tauto)

/-! ## Exit-hook wiring: setting the hook -/

/-- C1: for every task, every parent DAG identifier `parentDagID` and every
non-empty exit template name, after `addExitTask` the task's hooks hold an entry
for the exit event whose `Template` is the given name and whose parameter list
is exactly one parameter, named `paramParentDagID`, with the value `parentDagID`
itself. -/
theorem addExitTask_sets_exit_hook (paramParentDagID : String) (task : DAGTask)
    (exitTemplate parentDagID : String) (he : exitTemplate ≠ "") :
    ∃ hook : LifecycleHook,
      (addExitTask paramParentDagID task exitTemplate parentDagID).Hooks.get ExitLifecycleEvent
        = some hook ∧
      hook.Template = exitTemplate ∧
      hook.Arguments.Parameters =
        [{ Name := paramParentDagID, Default := none, Value := some parentDagID }] ∧
      hook.Arguments.Parameters.length = 1 := by
  refine ⟨{ Template := exitTemplate,
             Arguments := { Parameters := [{ Name := paramParentDagID, Value := some parentDagID }] } },
    ?_, rfl, rfl, rfl⟩
  simp [addExitTask, he, LifecycleHooks.get, AnyStringPtr, ExitLifecycleEvent]

/-- C1 at a task that already has hooks, with a parent identifier that has
surrounding blanks. -/
theorem addExitTask_sets_exit_hook_witness :
    ∃ hook : LifecycleHook,
      (addExitTask "parent-dag-id" exampleTask "exit-handler-1" " dag 42 ").Hooks.get
        ExitLifecycleEvent = some hook ∧
      hook.Template = "exit-handler-1" ∧
      hook.Arguments.Parameters =
        [{ Name := "parent-dag-id", Default := none, Value := some " dag 42 " }] ∧
      hook.Arguments.Parameters.length = 1 :=
  addExitTask_sets_exit_hook "parent-dag-id" exampleTask "exit-handler-1" " dag 42 " (by decide)

/-! ## Trust material injection: what is appended -/

/-- C2: for a template with a container and a non-empty CA secret name,
`ConfigureCABundle` returns a template whose container env list is the old list
followed by exactly four entries, whose volume list is the old list followed by
exactly one entry, and whose volume-mount list is the old list followed by
exactly one entry; every prior entry stays at its index. -/
theorem ConfigureCABundle_appends (CaBundlePath CaBundleSecretName : String) (env : Environ)
    (tmpl : Template) (c : Container) (hc : tmpl.Container = some c)
    (hs : osGetenv env CaBundleSecretName ≠ "") :
    ∃ (tmpl' : Template) (c' : Container) (e1 e2 e3 e4 : EnvVar) (v : Volume) (m : VolumeMount),
      ConfigureCABundle CaBundlePath CaBundleSecretName env tmpl = some tmpl' ∧
      tmpl'.Container = some c' ∧
      c'.Env = c.Env ++ [e1, e2, e3, e4] ∧
      tmpl'.Volumes = tmpl.Volumes ++ [v] ∧
      c'.VolumeMounts = c.VolumeMounts ++ [m] ∧
      (∀ i, i < c.Env.length → c'.Env[i]? = c.Env[i]?) ∧
      (∀ i, i < tmpl.Volumes.length → tmpl'.Volumes[i]? = tmpl.Volumes[i]?) ∧
      (∀ i, i < c.VolumeMounts.length → c'.VolumeMounts[i]? = c.VolumeMounts[i]?) := by
  refine ⟨_, _, _, _, _, _, _, _,
    ConfigureCABundle_of_secret CaBundlePath CaBundleSecretName env tmpl c hc hs,
    rfl, rfl, rfl, rfl, ?_, ?_, ?_⟩
  · intro i hi
    exact List.getElem?_append_left hi
  · intro i hi
    exact List.getElem?_append_left hi
  · intro i hi
    exact List.getElem?_append_left hi

/-- C2 at `exampleTemplate`, which has one env var, one volume and one mount. -/
theorem ConfigureCABundle_appends_witness :
    ∃ (tmpl' : Template) (c' : Container) (e1 e2 e3 e4 : EnvVar) (v : Volume) (m : VolumeMount),
      ConfigureCABundle "CABUNDLE_PATH" "CABUNDLE_SECRET_NAME" exampleEnv exampleTemplate
        = some tmpl' ∧
      tmpl'.Container = some c' ∧
      c'.Env = [{ Name := "HOME", Value := "/root" }] ++ [e1, e2, e3, e4] ∧
      tmpl'.Volumes = exampleTemplate.Volumes ++ [v] ∧
      c'.VolumeMounts = [{ Name := "data", MountPath := "/data" }] ++ [m] ∧
      (∀ i, i < 1 → c'.Env[i]? = [({ Name := "HOME", Value := "/root" } : EnvVar)][i]?) ∧
      (∀ i, i < 1 → tmpl'.Volumes[i]? = exampleTemplate.Volumes[i]?) ∧
      (∀ i, i < 1 →
        c'.VolumeMounts[i]? = [({ Name := "data", MountPath := "/data" } : VolumeMount)][i]?) :=
  ConfigureCABundle_appends "CABUNDLE_PATH" "CABUNDLE_SECRET_NAME" exampleEnv exampleTemplate _
    rfl (by decide)

/-- C3: when the CA secret name is empty, `ConfigureCABundle` does not fail and
returns the template it was given, whatever the template (with or without a
container) and whatever the CA bundle path. -/
theorem ConfigureCABundle_empty_secret_unchanged (CaBundlePath CaBundleSecretName : String)
    (env : Environ) (tmpl : Template) (hs : osGetenv env CaBundleSecretName = "") :
    ConfigureCABundle CaBundlePath CaBundleSecretName env tmpl = some tmpl :=
  ConfigureCABundle_no_secret CaBundlePath CaBundleSecretName env tmpl hs

/-- C3 at a container template and at a DAG template, with a path but no secret
name in the environment. -/
theorem ConfigureCABundle_empty_secret_unchanged_witness :
    ConfigureCABundle "CABUNDLE_PATH" "CABUNDLE_SECRET_NAME" exampleEnvNoSecret exampleTemplate
      = some exampleTemplate ∧
    ConfigureCABundle "CABUNDLE_PATH" "CABUNDLE_SECRET_NAME" exampleEnvNoSecret
      exampleDagTemplate = some exampleDagTemplate :=
  ⟨ConfigureCABundle_empty_secret_unchanged _ _ exampleEnvNoSecret exampleTemplate (by decide),
   ConfigureCABundle_empty_secret_unchanged _ _ exampleEnvNoSecret exampleDagTemplate
     (by decide)⟩

/-- C4: for a template with a container and a non-empty CA secret name, the last
of the four env vars appended by `ConfigureCABundle` is `SSL_CERT_DIR`, a literal
whose value is `path.Dir` of the CA bundle path followed by
`:/etc/ssl/certs:/etc/pki/tls/certs`, that is the three directories in this order
with one colon between neighbours. -/
theorem ConfigureCABundle_ssl_cert_dir (CaBundlePath CaBundleSecretName : String)
    (env : Environ) (tmpl : Template) (c : Container) (hc : tmpl.Container = some c)
    (hs : osGetenv env CaBundleSecretName ≠ "") :
    ∃ (tmpl' : Template) (c' : Container),
      ConfigureCABundle CaBundlePath CaBundleSecretName env tmpl = some tmpl' ∧
      tmpl'.Container = some c' ∧
      c'.Env.length = c.Env.length + 4 ∧
      c'.Env[c.Env.length + 3]? = some
        { Name := "SSL_CERT_DIR"
          Value := pathDir (osGetenv env CaBundlePath) ++ ":/etc/ssl/certs:/etc/pki/tls/certs"
          ValueFrom := none } ∧
      pathDir (osGetenv env CaBundlePath) ++ ":/etc/ssl/certs:/etc/pki/tls/certs" =
        pathDir (osGetenv env CaBundlePath) ++ ":" ++ "/etc/ssl/certs" ++ ":" ++
          "/etc/pki/tls/certs" := by
  refine ⟨_, _, ConfigureCABundle_of_secret CaBundlePath CaBundleSecretName env tmpl c hc hs,
    rfl, ?_, ?_, ?_⟩
  · simp
  · rw [List.getElem?_append_right (Nat.le_add_right _ _)]
    simp
  · exact (stringsJoin_certDirectories _).symm

/-- C4 at `exampleTemplate` with the bundle at `/kfp/certs/ca.pem`: the
directory is `/kfp/certs`. -/
theorem ConfigureCABundle_ssl_cert_dir_witness :
    pathDir (osGetenv exampleEnv "CABUNDLE_PATH") = "/kfp/certs" ∧
    ∃ (tmpl' : Template) (c' : Container),
      ConfigureCABundle "CABUNDLE_PATH" "CABUNDLE_SECRET_NAME" exampleEnv exampleTemplate
        = some tmpl' ∧
      tmpl'.Container = some c' ∧
      c'.Env.length = 1 + 4 ∧
      c'.Env[1 + 3]? = some
        { Name := "SSL_CERT_DIR"
          Value := pathDir (osGetenv exampleEnv "CABUNDLE_PATH") ++
            ":/etc/ssl/certs:/etc/pki/tls/certs"
          ValueFrom := none } ∧
      pathDir (osGetenv exampleEnv "CABUNDLE_PATH") ++ ":/etc/ssl/certs:/etc/pki/tls/certs" =
        pathDir (osGetenv exampleEnv "CABUNDLE_PATH") ++ ":" ++ "/etc/ssl/certs" ++ ":" ++
          "/etc/pki/tls/certs" :=
  ⟨by decide,
   ConfigureCABundle_ssl_cert_dir "CABUNDLE_PATH" "CABUNDLE_SECRET_NAME" exampleEnv
     exampleTemplate _ rfl (by decide)⟩

/-! ## TLS policy -/

/-- C5: when `ML_PIPELINE_TLS_ENABLED` is unset or set to the empty string,
`GetMLPipelineServiceTLSEnabled` returns `false` with no error. -/
theorem GetMLPipelineServiceTLSEnabled_default (env : Environ)
    (h : env MLPipelineTLSEnabledEnvVar = none ∨ env MLPipelineTLSEnabledEnvVar = some "") :
    GetMLPipelineServiceTLSEnabled env = (false, none) := by
  have hv : osGetenv env MLPipelineTLSEnabledEnvVar = "" := by
    unfold osGetenv
    rcases h with h | h <;> rw [h]
  rw [GetMLPipelineServiceTLSEnabled_eq, if_pos hv]

/-- C5 at the empty environment and at an environment that sets the variable to
the empty string. -/
theorem GetMLPipelineServiceTLSEnabled_default_witness :
    GetMLPipelineServiceTLSEnabled (fun _ => none) = (false, none) ∧
    GetMLPipelineServiceTLSEnabled (tlsEnv "") = (false, none) :=
  ⟨GetMLPipelineServiceTLSEnabled_default (fun _ => none) (Or.inl rfl),
   GetMLPipelineServiceTLSEnabled_default (tlsEnv "") (Or.inr (by decide))⟩

/-- C6: `GetMLPipelineServiceTLSEnabled` returns an error exactly when the value
of `ML_PIPELINE_TLS_ENABLED` is non-empty and `strconv.ParseBool` rejects it; the
error then is the `NumError` of `ParseBool` carrying the raw value, and the
boolean returned with it is `false`. -/
theorem GetMLPipelineServiceTLSEnabled_error (env : Environ) :
    ((GetMLPipelineServiceTLSEnabled env).2 ≠ none ↔
      (osGetenv env MLPipelineTLSEnabledEnvVar ≠ "" ∧
        (ParseBool (osGetenv env MLPipelineTLSEnabledEnvVar)).2 ≠ none)) ∧
    ((GetMLPipelineServiceTLSEnabled env).2 ≠ none →
      GetMLPipelineServiceTLSEnabled env =
        (false, some { Func := "ParseBool", Num := osGetenv env MLPipelineTLSEnabledEnvVar,
                       Err := StrconvErr.ErrSyntax })) := by
  rw [GetMLPipelineServiceTLSEnabled_eq]
  generalize osGetenv env MLPipelineTLSEnabledEnvVar = v
  by_cases h0 : v = ""
  · simp [h0]
  · simp only [h0, if_false, ne_eq, not_false_eq_true, true_and, true_iff]
    intro herr
    cases hp : (ParseBool v).2 with
    | none => exact absurd hp herr
    | some err => exact ParseBool_error_eq v err hp

/-- C6 at the value `maybe`: the call fails, the error carries `maybe`, and the
boolean is `false`. -/
theorem GetMLPipelineServiceTLSEnabled_error_witness :
    GetMLPipelineServiceTLSEnabled (tlsEnv "maybe") =
      (false, some { Func := "ParseBool", Num := "maybe", Err := StrconvErr.ErrSyntax }) :=
  (GetMLPipelineServiceTLSEnabled_error (tlsEnv "maybe")).2 (by decide)

/-- C7, as the code has it: on the spellings `true`, `TRUE`, `True` the result is
`true` without error, on `false`, `FALSE`, `False` it is `false` without error,
and every other string that equals `true` or `false` up to letter case is
rejected with the `ParseBool` error carrying that string. -/
theorem GetMLPipelineServiceTLSEnabled_three_spellings (env : Environ) :
    (osGetenv env MLPipelineTLSEnabledEnvVar ∈ ["true", "TRUE", "True"] →
      GetMLPipelineServiceTLSEnabled env = (true, none)) ∧
    (osGetenv env MLPipelineTLSEnabledEnvVar ∈ ["false", "FALSE", "False"] →
      GetMLPipelineServiceTLSEnabled env = (false, none)) ∧
    ((equalFold (osGetenv env MLPipelineTLSEnabledEnvVar) "true" = true ∨
        equalFold (osGetenv env MLPipelineTLSEnabledEnvVar) "false" = true) →
      osGetenv env MLPipelineTLSEnabledEnvVar ∉
        ["true", "TRUE", "True", "false", "FALSE", "False"] →
      GetMLPipelineServiceTLSEnabled env =
        (false, some (syntaxError "ParseBool" (osGetenv env MLPipelineTLSEnabledEnvVar)))) := by
  rw [GetMLPipelineServiceTLSEnabled_eq]
  generalize osGetenv env MLPipelineTLSEnabledEnvVar = v
  refine ⟨?_, ?_, ?_⟩
  · intro h
    simp only [List.mem_cons, List.mem_singleton, List.not_mem_nil, or_false] at h
    rcases h with h | h | h <;> subst h <;> decide
  · intro h
    simp only [List.mem_cons, List.mem_singleton, List.not_mem_nil, or_false] at h
    rcases h with h | h | h <;> subst h <;> decide
  · intro hfold hnot
    simp only [List.mem_cons, List.mem_singleton, List.not_mem_nil, or_false, not_or] at hnot
    obtain ⟨h1, h2, h3, h4, h5, h6⟩ := hnot
    have hne : v ≠ "" := by
      rintro rfl
      revert hfold
      decide
    have hshort : ∀ s ∈ ["1", "t", "T", "0", "f", "F"], v ≠ s := by
      intro s hs heq
      simp only [List.mem_cons, List.mem_singleton, List.not_mem_nil, or_false] at hs
      rcases hs with rfl | rfl | rfl | rfl | rfl | rfl <;> subst heq <;> revert hfold <;> decide
    simp only [List.mem_cons, List.mem_singleton, List.not_mem_nil, or_false, forall_eq_or_imp,
      forall_eq] at hshort
    obtain ⟨g1, g2, g3, g4, g5, g6⟩ := hshort
    simp [hne, ParseBool, h1, h2, h3, h4, h5, h6, g1, g2, g3, g4, g5, g6]

/-- C7 amended, at `True`, `FALSE` and `fAlSe`. -/
theorem GetMLPipelineServiceTLSEnabled_three_spellings_witness :
    GetMLPipelineServiceTLSEnabled (tlsEnv "True") = (true, none) ∧
    GetMLPipelineServiceTLSEnabled (tlsEnv "FALSE") = (false, none) ∧
    GetMLPipelineServiceTLSEnabled (tlsEnv "fAlSe") =
      (false, some (syntaxError "ParseBool" (osGetenv (tlsEnv "fAlSe") MLPipelineTLSEnabledEnvVar))) :=
  ⟨(GetMLPipelineServiceTLSEnabled_three_spellings (tlsEnv "True")).1 (by decide),
   (GetMLPipelineServiceTLSEnabled_three_spellings (tlsEnv "FALSE")).2.1 (by decide),
   (GetMLPipelineServiceTLSEnabled_three_spellings (tlsEnv "fAlSe")).2.2 (by decide)
     (by decide)⟩

/-- C7 fails as stated: `tRuE` equals `true` up to letter case, yet the call
returns an error (and `false`), not `(true, nil)`. -/
theorem GetMLPipelineServiceTLSEnabled_mixed_case_rejected :
    equalFold "tRuE" "true" = true ∧
    GetMLPipelineServiceTLSEnabled (tlsEnv "tRuE") =
      (false, some { Func := "ParseBool", Num := "tRuE", Err := StrconvErr.ErrSyntax }) ∧
    GetMLPipelineServiceTLSEnabled (tlsEnv "tRuE") ≠ (true, none) := by
  decide

/-! ## Trust material injection: invariant and failure -/

/-- C8, as the code has it: for a template with a container in which every
volume mount names exactly one volume, the call returns a template with that
same property exactly when the CA secret name is empty or the template has no
volume named `ca-secret` beforehand. -/
theorem ConfigureCABundle_preserves_volumeMountsResolve
    (CaBundlePath CaBundleSecretName : String) (env : Environ)
    (tmpl : Template) (c : Container) (hc : tmpl.Container = some c)
    (hinv : volumeMountsResolve tmpl) :
    (∃ tmpl', ConfigureCABundle CaBundlePath CaBundleSecretName env tmpl = some tmpl' ∧
        volumeMountsResolve tmpl') ↔
      (osGetenv env CaBundleSecretName = "" ∨ ∀ v ∈ tmpl.Volumes, v.Name ≠ "ca-secret") := by
  by_cases hs : osGetenv env CaBundleSecretName = ""
  · simp only [ConfigureCABundle_no_secret _ _ _ _ hs, hs, true_or, iff_true]
    exact ⟨tmpl, rfl, hinv⟩
  · rw [ConfigureCABundle_of_secret _ _ _ _ c hc hs]
    simp only [hs, false_or, Option.some.injEq, exists_eq_left']
    have hold : ∀ m ∈ c.VolumeMounts, tmpl.Volumes.countP (fun v => v.Name = m.Name) = 1 :=
      hinv c (by simp [hc])
    constructor
    · intro h v hv hname
      have hm := h _ rfl { Name := "ca-secret", MountPath := pathDir (osGetenv env CaBundlePath) }
        (by simp)
      simp only [List.countP_append, List.countP_cons, List.countP_nil] at hm
      have hpos : 0 < tmpl.Volumes.countP (fun v => v.Name = "ca-secret") :=
        List.countP_pos_iff.mpr ⟨v, hv, by simpa using hname⟩
      simp only [decide_True, if_true] at hm
      omega
    · intro h c' hc' m hm
      simp only [Option.mem_def, Option.some.injEq] at hc'
      subst hc'
      simp only [List.mem_append, List.mem_singleton] at hm
      simp only [List.countP_append, List.countP_cons, List.countP_nil]
      rcases hm with hm | hm
      · have h1 := hold m hm
        have hne : m.Name ≠ "ca-secret" := by
          intro heq
          rw [heq, countP_name_eq_zero _ _ h] at h1
          exact absurd h1 (by decide)
        rw [h1]
        simp [Ne.symm hne]
      · subst hm
        rw [countP_name_eq_zero _ _ h]
        simp

/-- C8 amended, at `exampleTemplate`, which has no volume named `ca-secret`: the
invariant holds before and after the call. -/
theorem ConfigureCABundle_preserves_volumeMountsResolve_witness :
    volumeMountsResolve exampleTemplate ∧
    ∃ tmpl', ConfigureCABundle "CABUNDLE_PATH" "CABUNDLE_SECRET_NAME" exampleEnv exampleTemplate
        = some tmpl' ∧ volumeMountsResolve tmpl' :=
  ⟨by decide,
   (ConfigureCABundle_preserves_volumeMountsResolve "CABUNDLE_PATH" "CABUNDLE_SECRET_NAME"
      exampleEnv exampleTemplate _ rfl (by decide)).mpr (Or.inr (by decide))⟩

/-- C8 fails as stated: a container template with a volume named `ca-secret` and
no mounts satisfies the invariant, and after the call its new `ca-secret` mount
matches two volumes. -/
theorem ConfigureCABundle_breaks_volumeMountsResolve :
    exampleTemplateWithCaVolume.Container ≠ none ∧
    volumeMountsResolve exampleTemplateWithCaVolume ∧
    ConfigureCABundle "CABUNDLE_PATH" "CABUNDLE_SECRET_NAME" exampleEnv
        exampleTemplateWithCaVolume =
      some
        { Name := "impl"
          Container := some
            { Name := "main"
              Env :=
                [ { Name := "REQUESTS_CA_BUNDLE", Value := "/kfp/certs/ca.pem" },
                  { Name := "AWS_CA_BUNDLE", Value := "/kfp/certs/ca.pem" },
                  { Name := "SSL_CERT_FILE", Value := "/kfp/certs/ca.pem" },
                  { Name := "SSL_CERT_DIR",
                    Value := "/kfp/certs:/etc/ssl/certs:/etc/pki/tls/certs" } ]
              VolumeMounts := [{ Name := "ca-secret", MountPath := "/kfp/certs" }] }
          Volumes :=
            [ { Name := "ca-secret" },
              { Name := "ca-secret"
                VolumeSource := { Secret := some { SecretName := "kfp-ca" } } } ] } ∧
    ¬ volumeMountsResolve
        { Name := "impl"
          Container := some
            { Name := "main"
              Env :=
                [ { Name := "REQUESTS_CA_BUNDLE", Value := "/kfp/certs/ca.pem" },
                  { Name := "AWS_CA_BUNDLE", Value := "/kfp/certs/ca.pem" },
                  { Name := "SSL_CERT_FILE", Value := "/kfp/certs/ca.pem" },
                  { Name := "SSL_CERT_DIR",
                    Value := "/kfp/certs:/etc/ssl/certs:/etc/pki/tls/certs" } ]
              VolumeMounts := [{ Name := "ca-secret", MountPath := "/kfp/certs" }] }
          Volumes :=
            [ { Name := "ca-secret" },
              { Name := "ca-secret"
                VolumeSource := { Secret := some { SecretName := "kfp-ca" } } } ] } := by
  decide

/-- C9, as the code has it: `ConfigureCABundle` completes exactly when the CA
secret name is empty or the template carries a container, for every CA bundle
path; on a template without a container and with a non-empty secret name it
panics on the nil container. -/
theorem ConfigureCABundle_completes_iff (CaBundlePath CaBundleSecretName : String)
    (env : Environ) (tmpl : Template) :
    (ConfigureCABundle CaBundlePath CaBundleSecretName env tmpl).isSome = true ↔
      (osGetenv env CaBundleSecretName = "" ∨ tmpl.Container.isSome = true) := by
  by_cases hs : osGetenv env CaBundleSecretName = ""
  · simp [ConfigureCABundle_no_secret _ _ _ _ hs, hs]
  · cases hc : tmpl.Container with
    | none => simp [ConfigureCABundle_no_container _ _ _ _ hc hs, hs]
    | some c => simp [ConfigureCABundle_of_secret _ _ _ _ c hc hs]

/-- C9 fails as stated: on a DAG template, which has no container, with a CA
secret name configured, the call panics. -/
theorem ConfigureCABundle_panics_without_container :
    exampleDagTemplate.Container = none ∧
    osGetenv exampleEnv "CABUNDLE_SECRET_NAME" = "kfp-ca" ∧
    ConfigureCABundle "CABUNDLE_PATH" "CABUNDLE_SECRET_NAME" exampleEnv exampleDagTemplate
      = none := by
  decide

/-! ## Exit-hook wiring: the empty template name -/

/-- C10: with an empty exit template name `addExitTask` returns the task as it
was, hooks included, for every task and every parent DAG identifier. -/
theorem addExitTask_empty_template_noop (paramParentDagID : String) (task : DAGTask)
    (parentDagID : String) :
    addExitTask paramParentDagID task "" parentDagID = task := by
  simp [addExitTask]

/-! ## Trust material injection: the entries that are appended -/

/-- C11: for a template with a container and a non-empty CA secret name, the
four env vars appended by `ConfigureCABundle` are, in this order,
`REQUESTS_CA_BUNDLE`, `AWS_CA_BUNDLE`, `SSL_CERT_FILE` and `SSL_CERT_DIR`; the
first three have the CA bundle path exactly as read from the environment as
their value, and all four are literals (no value source). -/
theorem ConfigureCABundle_env_vars (CaBundlePath CaBundleSecretName : String) (env : Environ)
    (tmpl : Template) (c : Container) (hc : tmpl.Container = some c)
    (hs : osGetenv env CaBundleSecretName ≠ "") :
    ∃ (tmpl' : Template) (c' : Container),
      ConfigureCABundle CaBundlePath CaBundleSecretName env tmpl = some tmpl' ∧
      tmpl'.Container = some c' ∧
      c'.Env = c.Env ++
        [ { Name := "REQUESTS_CA_BUNDLE", Value := osGetenv env CaBundlePath, ValueFrom := none },
          { Name := "AWS_CA_BUNDLE", Value := osGetenv env CaBundlePath, ValueFrom := none },
          { Name := "SSL_CERT_FILE", Value := osGetenv env CaBundlePath, ValueFrom := none },
          { Name := "SSL_CERT_DIR",
            Value := pathDir (osGetenv env CaBundlePath) ++ ":/etc/ssl/certs:/etc/pki/tls/certs",
            ValueFrom := none } ] :=
  ⟨_, _, ConfigureCABundle_of_secret CaBundlePath CaBundleSecretName env tmpl c hc hs,
    rfl, rfl⟩

/-- C11 at `exampleTemplate` with the bundle at `/kfp/certs/ca.pem`. -/
theorem ConfigureCABundle_env_vars_witness :
    osGetenv exampleEnv "CABUNDLE_PATH" = "/kfp/certs/ca.pem" ∧
    ∃ (tmpl' : Template) (c' : Container),
      ConfigureCABundle "CABUNDLE_PATH" "CABUNDLE_SECRET_NAME" exampleEnv exampleTemplate
        = some tmpl' ∧
      tmpl'.Container = some c' ∧
      c'.Env = exampleContainer.Env ++
        [ { Name := "REQUESTS_CA_BUNDLE", Value := osGetenv exampleEnv "CABUNDLE_PATH",
            ValueFrom := none },
          { Name := "AWS_CA_BUNDLE", Value := osGetenv exampleEnv "CABUNDLE_PATH",
            ValueFrom := none },
          { Name := "SSL_CERT_FILE", Value := osGetenv exampleEnv "CABUNDLE_PATH",
            ValueFrom := none },
          { Name := "SSL_CERT_DIR",
            Value := pathDir (osGetenv exampleEnv "CABUNDLE_PATH") ++
              ":/etc/ssl/certs:/etc/pki/tls/certs",
            ValueFrom := none } ] :=
  ⟨by decide,
   ConfigureCABundle_env_vars "CABUNDLE_PATH" "CABUNDLE_SECRET_NAME" exampleEnv exampleTemplate
     exampleContainer rfl (by decide)⟩

/-- C12: for a template with a container and a non-empty CA secret name `s`, the
volume appended by `ConfigureCABundle` is named `ca-secret` and has the secret
named `s` as its source, and the appended volume mount is named `ca-secret` too
and mounted at `path.Dir` of the CA bundle path. -/
theorem ConfigureCABundle_volume_and_mount (CaBundlePath CaBundleSecretName : String)
    (env : Environ) (tmpl : Template) (c : Container) (hc : tmpl.Container = some c)
    (hs : osGetenv env CaBundleSecretName ≠ "") :
    ∃ (tmpl' : Template) (c' : Container),
      ConfigureCABundle CaBundlePath CaBundleSecretName env tmpl = some tmpl' ∧
      tmpl'.Container = some c' ∧
      tmpl'.Volumes = tmpl.Volumes ++
        [ { Name := "ca-secret"
            VolumeSource :=
              { Secret := some { SecretName := osGetenv env CaBundleSecretName } } } ] ∧
      c'.VolumeMounts = c.VolumeMounts ++
        [ { Name := "ca-secret", ReadOnly := false,
            MountPath := pathDir (osGetenv env CaBundlePath), SubPath := "" } ] :=
  ⟨_, _, ConfigureCABundle_of_secret CaBundlePath CaBundleSecretName env tmpl c hc hs,
    rfl, rfl, rfl⟩

/-- C12 at `exampleTemplate`: the secret is `kfp-ca`, the mount path `/kfp/certs`. -/
theorem ConfigureCABundle_volume_and_mount_witness :
    osGetenv exampleEnv "CABUNDLE_SECRET_NAME" = "kfp-ca" ∧
    pathDir (osGetenv exampleEnv "CABUNDLE_PATH") = "/kfp/certs" ∧
    ∃ (tmpl' : Template) (c' : Container),
      ConfigureCABundle "CABUNDLE_PATH" "CABUNDLE_SECRET_NAME" exampleEnv exampleTemplate
        = some tmpl' ∧
      tmpl'.Container = some c' ∧
      tmpl'.Volumes = exampleTemplate.Volumes ++
        [ { Name := "ca-secret"
            VolumeSource :=
              { Secret := some { SecretName := osGetenv exampleEnv "CABUNDLE_SECRET_NAME" } } } ] ∧
      c'.VolumeMounts = exampleContainer.VolumeMounts ++
        [ { Name := "ca-secret", ReadOnly := false,
            MountPath := pathDir (osGetenv exampleEnv "CABUNDLE_PATH"), SubPath := "" } ] :=
  ⟨by decide, by decide,
   ConfigureCABundle_volume_and_mount "CABUNDLE_PATH" "CABUNDLE_SECRET_NAME" exampleEnv
     exampleTemplate exampleContainer rfl (by decide)⟩

/-! ## Identity env vars -/

/-- C13: `commonEnvs` is exactly `KFP_POD_NAME` followed by `KFP_POD_UID`, the
first a field reference to `metadata.name`, the second to `metadata.uid`, both
with an empty literal value; so appending `commonEnvs` to any env list gives a
list two entries longer whose first part is the old list and whose last two
entries are `commonEnvs`. -/
theorem commonEnvs_two_field_refs (env : List EnvVar) :
    commonEnvs =
      [ { Name := "KFP_POD_NAME", Value := "",
          ValueFrom := some { FieldRef := some { APIVersion := "", FieldPath := "metadata.name" } } },
        { Name := "KFP_POD_UID", Value := "",
          ValueFrom := some { FieldRef := some { APIVersion := "", FieldPath := "metadata.uid" } } } ] ∧
    (env ++ commonEnvs).length = env.length + 2 ∧
    (env ++ commonEnvs).take env.length = env ∧
    (env ++ commonEnvs).drop env.length = commonEnvs := by
  refine ⟨rfl, ?_, ?_, ?_⟩
  · simp [commonEnvs]
  · simp
  · simp

/-! ## Exit-hook wiring: overwriting -/

/-- C14: for every task, every `e1`, `p1`, `p2` and every non-empty `e2`, calling
`addExitTask` with `e1`, `p1` and then with `e2`, `p2` gives the same task as the
second call alone; the hooks then are the single exit hook of the second call,
so nothing of the first hook survives. -/
theorem addExitTask_last_writer_wins (paramParentDagID : String) (task : DAGTask)
    (e1 p1 e2 p2 : String) (he2 : e2 ≠ "") :
    addExitTask paramParentDagID (addExitTask paramParentDagID task e1 p1) e2 p2 =
      addExitTask paramParentDagID task e2 p2 ∧
    (addExitTask paramParentDagID (addExitTask paramParentDagID task e1 p1) e2 p2).Hooks =
      [(ExitLifecycleEvent,
        { Template := e2
          Arguments := { Parameters := [{ Name := paramParentDagID, Value := some p2 }] } })] := by
  unfold addExitTask
  by_cases he1 : e1 = ""
  · simp [he1, he2, AnyStringPtr]
  · simp [he1, he2, AnyStringPtr]

/-- C14 at `exampleTask`, with a first call for `exit-a` and a second for `exit-b`. -/
theorem addExitTask_last_writer_wins_witness :
    addExitTask "parent-dag-id" (addExitTask "parent-dag-id" exampleTask "exit-a" "dag-1")
        "exit-b" "dag-2" =
      addExitTask "parent-dag-id" exampleTask "exit-b" "dag-2" ∧
    (addExitTask "parent-dag-id" (addExitTask "parent-dag-id" exampleTask "exit-a" "dag-1")
        "exit-b" "dag-2").Hooks =
      [(ExitLifecycleEvent,
        { Template := "exit-b"
          Arguments := { Parameters := [{ Name := "parent-dag-id", Value := some "dag-2" }] } })] :=
  addExitTask_last_writer_wins "parent-dag-id" exampleTask "exit-a" "dag-1" "exit-b" "dag-2"
    (by decide)

/-! ## Trust material injection: repetition, composition, independence -/

/-- C15: for a template with a container and a non-empty CA secret name, a second
call of `ConfigureCABundle` on the result of the first appends the same
additions again: the env list is the old list followed by the four env vars
twice, the volumes are the old ones followed by the `ca-secret` volume twice,
the mounts the old ones followed by the `ca-secret` mount twice, and the result
of the second call differs from that of the first. -/
theorem ConfigureCABundle_twice_duplicates (CaBundlePath CaBundleSecretName : String)
    (env : Environ) (tmpl : Template) (c : Container) (hc : tmpl.Container = some c)
    (hs : osGetenv env CaBundleSecretName ≠ "") :
    ∃ (t1 : Template) (c1 : Container) (t2 : Template) (c2 : Container)
      (added : List EnvVar) (v : Volume) (m : VolumeMount),
      ConfigureCABundle CaBundlePath CaBundleSecretName env tmpl = some t1 ∧
      t1.Container = some c1 ∧
      added.length = 4 ∧
      c1.Env = c.Env ++ added ∧
      t1.Volumes = tmpl.Volumes ++ [v] ∧
      c1.VolumeMounts = c.VolumeMounts ++ [m] ∧
      v.Name = "ca-secret" ∧ m.Name = "ca-secret" ∧
      ConfigureCABundle CaBundlePath CaBundleSecretName env t1 = some t2 ∧
      t2.Container = some c2 ∧
      c2.Env = c.Env ++ added ++ added ∧
      t2.Volumes = tmpl.Volumes ++ [v] ++ [v] ∧
      c2.VolumeMounts = c.VolumeMounts ++ [m] ++ [m] ∧
      t2 ≠ t1 := by
  refine ⟨_, _, _, _, _, _, _,
    ConfigureCABundle_of_secret CaBundlePath CaBundleSecretName env tmpl c hc hs, rfl,
    ?_, rfl, rfl, rfl, rfl, rfl,
    ConfigureCABundle_of_secret CaBundlePath CaBundleSecretName env _ _ rfl hs, rfl,
    rfl, rfl, rfl, ?_⟩
  · rfl
  · intro h
    have hv := congrArg (fun t => t.Volumes.length) h
    simp at hv

/-- C15 at `exampleTemplate`. -/
theorem ConfigureCABundle_twice_duplicates_witness :
    ∃ (t1 : Template) (c1 : Container) (t2 : Template) (c2 : Container)
      (added : List EnvVar) (v : Volume) (m : VolumeMount),
      ConfigureCABundle "CABUNDLE_PATH" "CABUNDLE_SECRET_NAME" exampleEnv exampleTemplate
        = some t1 ∧
      t1.Container = some c1 ∧
      added.length = 4 ∧
      c1.Env = exampleContainer.Env ++ added ∧
      t1.Volumes = exampleTemplate.Volumes ++ [v] ∧
      c1.VolumeMounts = exampleContainer.VolumeMounts ++ [m] ∧
      v.Name = "ca-secret" ∧ m.Name = "ca-secret" ∧
      ConfigureCABundle "CABUNDLE_PATH" "CABUNDLE_SECRET_NAME" exampleEnv t1 = some t2 ∧
      t2.Container = some c2 ∧
      c2.Env = exampleContainer.Env ++ added ++ added ∧
      t2.Volumes = exampleTemplate.Volumes ++ [v] ++ [v] ∧
      c2.VolumeMounts = exampleContainer.VolumeMounts ++ [m] ++ [m] ∧
      t2 ≠ t1 :=
  ConfigureCABundle_twice_duplicates "CABUNDLE_PATH" "CABUNDLE_SECRET_NAME" exampleEnv
    exampleTemplate exampleContainer rfl (by decide)

/-- C16: for a template with container `c` and a non-empty CA secret name, running
`ConfigureCABundle` and then appending `commonEnvs` (container `injectIdentityEnvs
c1`), and appending `commonEnvs` first and then running `ConfigureCABundle`
(container `c2`), give the same volumes and the same volume mounts, env lists
that are permutations of each other and both start with the old env list, and
templates that are equal once the env list of one is put into the other. -/
theorem ConfigureCABundle_commutes_with_identity_envs
    (CaBundlePath CaBundleSecretName : String) (env : Environ) (tmpl : Template) (c : Container)
    (hc : tmpl.Container = some c) (hs : osGetenv env CaBundleSecretName ≠ "") :
    ∃ (t1 : Template) (c1 : Container) (t2 : Template) (c2 : Container),
      ConfigureCABundle CaBundlePath CaBundleSecretName env tmpl = some t1 ∧
      t1.Container = some c1 ∧
      ConfigureCABundle CaBundlePath CaBundleSecretName env
        { tmpl with Container := some (injectIdentityEnvs c) } = some t2 ∧
      t2.Container = some c2 ∧
      t1.Volumes = t2.Volumes ∧
      (injectIdentityEnvs c1).VolumeMounts = c2.VolumeMounts ∧
      (injectIdentityEnvs c1).Env.Perm c2.Env ∧
      c.Env <+: (injectIdentityEnvs c1).Env ∧
      c.Env <+: c2.Env ∧
      ({ t1 with Container := some { injectIdentityEnvs c1 with Env := c2.Env } } : Template)
        = t2 := by
  refine ⟨_, _, _, _,
    ConfigureCABundle_of_secret CaBundlePath CaBundleSecretName env tmpl c hc hs, rfl,
    ConfigureCABundle_of_secret CaBundlePath CaBundleSecretName env _ _ rfl hs, rfl,
    rfl, rfl, ?_, ?_, ?_, rfl⟩
  · simp only [injectIdentityEnvs, List.append_assoc]
    exact List.Perm.append_left _ List.perm_append_comm
  · simp only [injectIdentityEnvs, List.append_assoc]
    exact List.prefix_append _ _
  · simp only [injectIdentityEnvs, List.append_assoc]
    exact List.prefix_append _ _

/-- C16 at `exampleTemplate`. -/
theorem ConfigureCABundle_commutes_with_identity_envs_witness :
    ∃ (t1 : Template) (c1 : Container) (t2 : Template) (c2 : Container),
      ConfigureCABundle "CABUNDLE_PATH" "CABUNDLE_SECRET_NAME" exampleEnv exampleTemplate
        = some t1 ∧
      t1.Container = some c1 ∧
      ConfigureCABundle "CABUNDLE_PATH" "CABUNDLE_SECRET_NAME" exampleEnv
        { exampleTemplate with Container := some (injectIdentityEnvs exampleContainer) }
        = some t2 ∧
      t2.Container = some c2 ∧
      t1.Volumes = t2.Volumes ∧
      (injectIdentityEnvs c1).VolumeMounts = c2.VolumeMounts ∧
      (injectIdentityEnvs c1).Env.Perm c2.Env ∧
      exampleContainer.Env <+: (injectIdentityEnvs c1).Env ∧
      exampleContainer.Env <+: c2.Env ∧
      ({ t1 with Container := some { injectIdentityEnvs c1 with Env := c2.Env } } : Template)
        = t2 :=
  ConfigureCABundle_commutes_with_identity_envs "CABUNDLE_PATH" "CABUNDLE_SECRET_NAME"
    exampleEnv exampleTemplate exampleContainer rfl (by decide)

/-- C17, as the code has it: for every template and every two environments in
which `os.Getenv` reads the same CA bundle path and the same CA secret name,
`ConfigureCABundle` gives the same result, whatever else the environments hold
(the TLS setting included). With an empty secret name the template comes back
unchanged. With a non-empty secret name a template that carries a container
comes back with the four env vars, the `ca-secret` volume and the `ca-secret`
mount appended, so it differs from the template given; a template without a
container gets nothing injected, the call panics on the nil container. -/
theorem ConfigureCABundle_independent_of_tls (CaBundlePath CaBundleSecretName : String)
    (env1 env2 : Environ) (tmpl : Template)
    (hp : osGetenv env1 CaBundlePath = osGetenv env2 CaBundlePath)
    (hs : osGetenv env1 CaBundleSecretName = osGetenv env2 CaBundleSecretName) :
    ConfigureCABundle CaBundlePath CaBundleSecretName env1 tmpl =
      ConfigureCABundle CaBundlePath CaBundleSecretName env2 tmpl ∧
    (osGetenv env1 CaBundleSecretName = "" →
      ConfigureCABundle CaBundlePath CaBundleSecretName env1 tmpl = some tmpl) ∧
    (∀ c : Container, tmpl.Container = some c → osGetenv env1 CaBundleSecretName ≠ "" →
      ConfigureCABundle CaBundlePath CaBundleSecretName env1 tmpl ≠ some tmpl ∧
      ConfigureCABundle CaBundlePath CaBundleSecretName env1 tmpl =
        some { tmpl with
          Container := some { c with
            Env := c.Env ++
              [ { Name := "REQUESTS_CA_BUNDLE", Value := osGetenv env1 CaBundlePath },
                { Name := "AWS_CA_BUNDLE", Value := osGetenv env1 CaBundlePath },
                { Name := "SSL_CERT_FILE", Value := osGetenv env1 CaBundlePath },
                { Name := "SSL_CERT_DIR",
                  Value := pathDir (osGetenv env1 CaBundlePath) ++
                    ":/etc/ssl/certs:/etc/pki/tls/certs" } ]
            VolumeMounts := c.VolumeMounts ++
              [{ Name := "ca-secret", MountPath := pathDir (osGetenv env1 CaBundlePath) }] }
          Volumes := tmpl.Volumes ++
            [{ Name := "ca-secret"
               VolumeSource :=
                 { Secret := some { SecretName := osGetenv env1 CaBundleSecretName } } }] }) ∧
    (tmpl.Container = none → osGetenv env1 CaBundleSecretName ≠ "" →
      ConfigureCABundle CaBundlePath CaBundleSecretName env1 tmpl = none) := by
  refine ⟨?_, ?_, ?_, ?_⟩
  · simp only [ConfigureCABundle, hp, hs]
  · intro h0
    exact ConfigureCABundle_no_secret _ _ _ _ h0
  · intro c hc h0
    rw [ConfigureCABundle_of_secret _ _ _ _ c hc h0]
    refine ⟨?_, rfl⟩
    intro h
    have hv := congrArg (fun t => t.Volumes.length) (Option.some.inj h)
    simp at hv
  · intro hc h0
    exact ConfigureCABundle_no_container _ _ _ _ hc h0

/-- C17 amended, at environments with the TLS setting `true` and unparseable:
the TLS results differ, the results of `ConfigureCABundle` are the same, and
at `exampleTemplate` the additions are made. -/
theorem ConfigureCABundle_independent_of_tls_witness :
    GetMLPipelineServiceTLSEnabled (exampleEnvWithTLS "true") ≠
      GetMLPipelineServiceTLSEnabled (exampleEnvWithTLS "not-a-bool") ∧
    (ConfigureCABundle "CABUNDLE_PATH" "CABUNDLE_SECRET_NAME" (exampleEnvWithTLS "true")
        exampleTemplate =
      ConfigureCABundle "CABUNDLE_PATH" "CABUNDLE_SECRET_NAME" (exampleEnvWithTLS "not-a-bool")
        exampleTemplate) ∧
    ConfigureCABundle "CABUNDLE_PATH" "CABUNDLE_SECRET_NAME" (exampleEnvWithTLS "true")
        exampleTemplate ≠ some exampleTemplate ∧
    ConfigureCABundle "CABUNDLE_PATH" "CABUNDLE_SECRET_NAME" (exampleEnvWithTLS "true")
        exampleTemplate =
      some { exampleTemplate with
        Container := some { exampleContainer with
          Env := exampleContainer.Env ++
            [ { Name := "REQUESTS_CA_BUNDLE",
                Value := osGetenv (exampleEnvWithTLS "true") "CABUNDLE_PATH" },
              { Name := "AWS_CA_BUNDLE",
                Value := osGetenv (exampleEnvWithTLS "true") "CABUNDLE_PATH" },
              { Name := "SSL_CERT_FILE",
                Value := osGetenv (exampleEnvWithTLS "true") "CABUNDLE_PATH" },
              { Name := "SSL_CERT_DIR",
                Value := pathDir (osGetenv (exampleEnvWithTLS "true") "CABUNDLE_PATH") ++
                  ":/etc/ssl/certs:/etc/pki/tls/certs" } ]
          VolumeMounts := exampleContainer.VolumeMounts ++
            [{ Name := "ca-secret",
               MountPath := pathDir (osGetenv (exampleEnvWithTLS "true") "CABUNDLE_PATH") }] }
        Volumes := exampleTemplate.Volumes ++
          [{ Name := "ca-secret"
             VolumeSource :=
               { Secret := some
                   { SecretName :=
                       osGetenv (exampleEnvWithTLS "true") "CABUNDLE_SECRET_NAME" } } }] } :=
  ⟨by decide,
   (ConfigureCABundle_independent_of_tls "CABUNDLE_PATH" "CABUNDLE_SECRET_NAME"
      (exampleEnvWithTLS "true") (exampleEnvWithTLS "not-a-bool") exampleTemplate
      (by decide) (by decide)).1,
   ((ConfigureCABundle_independent_of_tls "CABUNDLE_PATH" "CABUNDLE_SECRET_NAME"
      (exampleEnvWithTLS "true") (exampleEnvWithTLS "not-a-bool") exampleTemplate
      (by decide) (by decide)).2.2.1 exampleContainer rfl (by decide)).1,
   ((ConfigureCABundle_independent_of_tls "CABUNDLE_PATH" "CABUNDLE_SECRET_NAME"
      (exampleEnvWithTLS "true") (exampleEnvWithTLS "not-a-bool") exampleTemplate
      (by decide) (by decide)).2.2.1 exampleContainer rfl (by decide)).2⟩

/-- C17 fails as stated: on a DAG template, which has no container, the secret
name is non-empty in both environments and yet nothing is injected; the call
panics, and with an empty secret name the same template comes back unchanged,
so for this template no value of the secret name leads to an injection. -/
theorem ConfigureCABundle_secret_set_nothing_injected :
    osGetenv (exampleEnvWithTLS "true") "CABUNDLE_SECRET_NAME" ≠ "" ∧
    osGetenv (exampleEnvWithTLS "false") "CABUNDLE_SECRET_NAME" ≠ "" ∧
    ConfigureCABundle "CABUNDLE_PATH" "CABUNDLE_SECRET_NAME" (exampleEnvWithTLS "true")
      exampleDagTemplate = none ∧
    ConfigureCABundle "CABUNDLE_PATH" "CABUNDLE_SECRET_NAME" (exampleEnvWithTLS "false")
      exampleDagTemplate = none ∧
    ConfigureCABundle "CABUNDLE_PATH" "CABUNDLE_SECRET_NAME" exampleEnvNoSecret
      exampleDagTemplate = some exampleDagTemplate := by
  decide

/-! ## TLS policy: agreement with `strconv.ParseBool` -/

/-- C18: on a non-empty value of `ML_PIPELINE_TLS_ENABLED` the result of
`GetMLPipelineServiceTLSEnabled` is that of `strconv.ParseBool`: it is
`(true, nil)` exactly for `1`, `t`, `T`, `TRUE`, `true`, `True`, it is
`(false, nil)` exactly for `0`, `f`, `F`, `FALSE`, `false`, `False`, and it is an
error exactly for every other value. -/
theorem GetMLPipelineServiceTLSEnabled_agrees_with_ParseBool (env : Environ)
    (hne : osGetenv env MLPipelineTLSEnabledEnvVar ≠ "") :
    GetMLPipelineServiceTLSEnabled env = ParseBool (osGetenv env MLPipelineTLSEnabledEnvVar) ∧
    (GetMLPipelineServiceTLSEnabled env = (true, none) ↔
      osGetenv env MLPipelineTLSEnabledEnvVar ∈ ["1", "t", "T", "TRUE", "true", "True"]) ∧
    (GetMLPipelineServiceTLSEnabled env = (false, none) ↔
      osGetenv env MLPipelineTLSEnabledEnvVar ∈ ["0", "f", "F", "FALSE", "false", "False"]) ∧
    ((GetMLPipelineServiceTLSEnabled env).2 ≠ none ↔
      osGetenv env MLPipelineTLSEnabledEnvVar ∉
        ["1", "t", "T", "TRUE", "true", "True", "0", "f", "F", "FALSE", "false", "False"]) := by
  rw [GetMLPipelineServiceTLSEnabled_eq, if_neg hne]
  refine ⟨rfl, ParseBool_true_iff _, ParseBool_false_iff _, ?_⟩
  rw [ParseBool_error_iff]
  simp only [List.mem_cons, List.mem_singleton, List.not_mem_nil, or_false]
  tauto

/-- C18 at the values `T`, `0` and `yes`. -/
theorem GetMLPipelineServiceTLSEnabled_agrees_with_ParseBool_witness :
    GetMLPipelineServiceTLSEnabled (tlsEnv "T") = (true, none) ∧
    GetMLPipelineServiceTLSEnabled (tlsEnv "0") = (false, none) ∧
    (GetMLPipelineServiceTLSEnabled (tlsEnv "yes")).2 ≠ none :=
  ⟨(GetMLPipelineServiceTLSEnabled_agrees_with_ParseBool (tlsEnv "T") (by decide)).2.1.mpr
     (by decide),
   (GetMLPipelineServiceTLSEnabled_agrees_with_ParseBool (tlsEnv "0") (by decide)).2.2.1.mpr
     (by decide),
   (GetMLPipelineServiceTLSEnabled_agrees_with_ParseBool (tlsEnv "yes") (by decide)).2.2.2.mpr
     (by decide)⟩

/-! ## Exit-hook wiring: the whole hook set -/

/-- C19: with a non-empty exit template name, after `addExitTask` the hook set
of the task has the exit event as its only key, whatever hooks the task held
before, so no hook of another event is left; every field of the task other than
`Hooks` is as before. -/
theorem addExitTask_replaces_hook_set (paramParentDagID : String) (task : DAGTask)
    (exitTemplate parentDagID : String) (he : exitTemplate ≠ "") :
    (addExitTask paramParentDagID task exitTemplate parentDagID).Hooks.keys
        = [ExitLifecycleEvent] ∧
    (∀ event : LifecycleEvent, event ≠ ExitLifecycleEvent →
      (addExitTask paramParentDagID task exitTemplate parentDagID).Hooks.get event = none) ∧
    addExitTask paramParentDagID task exitTemplate parentDagID =
      { task with Hooks := (addExitTask paramParentDagID task exitTemplate parentDagID).Hooks } := by
  refine ⟨?_, ?_, ?_⟩
  · simp [addExitTask, he, LifecycleHooks.keys]
  · intro event hev
    simp [addExitTask, he, LifecycleHooks.get, Ne.symm hev]
  · simp [addExitTask, he]

/-- C19 at `exampleTask`, which holds a hook for the event `running` before the
call and none after it. -/
theorem addExitTask_replaces_hook_set_witness :
    exampleTask.Hooks.get "running" = some { Template := "notify" } ∧
    (addExitTask "parent-dag-id" exampleTask "exit-handler-1" "dag-42").Hooks.get "running"
      = none ∧
    (addExitTask "parent-dag-id" exampleTask "exit-handler-1" "dag-42").Hooks.keys
      = [ExitLifecycleEvent] :=
  ⟨by decide,
   (addExitTask_replaces_hook_set "parent-dag-id" exampleTask "exit-handler-1" "dag-42"
      (by decide)).2.1 "running" (by decide),
   (addExitTask_replaces_hook_set "parent-dag-id" exampleTask "exit-handler-1" "dag-42"
      (by decide)).1⟩

/-! ## Trust material injection: the empty bundle path -/

/-- C20: for a template with a container and a non-empty CA secret name, the
mount appended by `ConfigureCABundle` never has the empty mount path, whatever
the CA bundle path; and when the CA bundle path is unset or empty everything is
still injected: the three file-path env vars have the empty value,
`SSL_CERT_DIR` is `.:/etc/ssl/certs:/etc/pki/tls/certs`, the `ca-secret` mount has
the mount path `.`, and the `ca-secret` volume is added. -/
theorem ConfigureCABundle_empty_path (CaBundlePath CaBundleSecretName : String)
    (env : Environ) (tmpl : Template) (c : Container) (hc : tmpl.Container = some c)
    (hs : osGetenv env CaBundleSecretName ≠ "") :
    ∃ (tmpl' : Template) (c' : Container) (m : VolumeMount),
      ConfigureCABundle CaBundlePath CaBundleSecretName env tmpl = some tmpl' ∧
      tmpl'.Container = some c' ∧
      c'.VolumeMounts = c.VolumeMounts ++ [m] ∧
      m.MountPath ≠ "" ∧
      ((env CaBundlePath = none ∨ env CaBundlePath = some "") →
        c'.Env = c.Env ++
          [ { Name := "REQUESTS_CA_BUNDLE", Value := "", ValueFrom := none },
            { Name := "AWS_CA_BUNDLE", Value := "", ValueFrom := none },
            { Name := "SSL_CERT_FILE", Value := "", ValueFrom := none },
            { Name := "SSL_CERT_DIR", Value := ".:/etc/ssl/certs:/etc/pki/tls/certs",
              ValueFrom := none } ] ∧
        m = { Name := "ca-secret", ReadOnly := false, MountPath := ".", SubPath := "" } ∧
        tmpl'.Volumes = tmpl.Volumes ++
          [ { Name := "ca-secret"
              VolumeSource :=
                { Secret := some { SecretName := osGetenv env CaBundleSecretName } } } ]) := by
  refine ⟨_, _, _,
    ConfigureCABundle_of_secret CaBundlePath CaBundleSecretName env tmpl c hc hs, rfl, rfl,
    pathDir_ne_empty _, ?_⟩
  intro hp
  have hv : osGetenv env CaBundlePath = "" := by
    unfold osGetenv
    rcases hp with h | h <;> rw [h]
  have hdir : pathDir "" ++ ":/etc/ssl/certs:/etc/pki/tls/certs" =
      ".:/etc/ssl/certs:/etc/pki/tls/certs" := by
    decide
  refine ⟨?_, ?_, rfl⟩
  · simp only [hv, hdir]
  · simp only [hv, pathDir_empty]

/-- C20 at `exampleTemplate` with a secret name but no bundle path in the
environment. -/
theorem ConfigureCABundle_empty_path_witness :
    exampleEnvNoPath "CABUNDLE_PATH" = none ∧
    ∃ (tmpl' : Template) (c' : Container) (m : VolumeMount),
      ConfigureCABundle "CABUNDLE_PATH" "CABUNDLE_SECRET_NAME" exampleEnvNoPath exampleTemplate
        = some tmpl' ∧
      tmpl'.Container = some c' ∧
      c'.VolumeMounts = exampleContainer.VolumeMounts ++ [m] ∧
      m.MountPath ≠ "" ∧
      ((exampleEnvNoPath "CABUNDLE_PATH" = none ∨ exampleEnvNoPath "CABUNDLE_PATH" = some "") →
        c'.Env = exampleContainer.Env ++
          [ { Name := "REQUESTS_CA_BUNDLE", Value := "", ValueFrom := none },
            { Name := "AWS_CA_BUNDLE", Value := "", ValueFrom := none },
            { Name := "SSL_CERT_FILE", Value := "", ValueFrom := none },
            { Name := "SSL_CERT_DIR", Value := ".:/etc/ssl/certs:/etc/pki/tls/certs",
              ValueFrom := none } ] ∧
        m = { Name := "ca-secret", ReadOnly := false, MountPath := ".", SubPath := "" } ∧
        tmpl'.Volumes = exampleTemplate.Volumes ++
          [ { Name := "ca-secret"
              VolumeSource :=
                { Secret := some
                    { SecretName := osGetenv exampleEnvNoPath "CABUNDLE_SECRET_NAME" } } } ]) :=
  ⟨by decide,
   ConfigureCABundle_empty_path "CABUNDLE_PATH" "CABUNDLE_SECRET_NAME" exampleEnvNoPath
     exampleTemplate exampleContainer rfl (by decide)⟩

end Argocompiler
